import Mathlib

/-!
Verification development for the anaprilin reminder bot
(src/storage.py and src/bot.py).

The Python data files are JSON dictionaries; we model a dictionary as an
association list with string keys.  The operations below mirror Python
dict semantics for the accesses the code performs: `dget` is `d.get(k)`
(first matching key), `dset` is `d[k] = v` (replace in place, append if
absent), `dremove` is `d.pop(k, default)`'s removal effect.  States
reachable through the storage API never hold a duplicated key, where the
two coincide with CPython behaviour.
-/

/-- Python `d.get(k)`: the value at the first matching key, if any. -/
def dget {α : Type} : List (String × α) → String → Option α
  | [], _ => none
  | p :: rest, k => if p.1 == k then some p.2 else dget rest k

/-- Python `d[k] = v`: replace the first binding of `k`, or append one. -/
def dset {α : Type} : List (String × α) → String → α → List (String × α)
  | [], k, v => [(k, v)]
  | p :: rest, k, v => if p.1 == k then (k, v) :: rest else p :: dset rest k v

/-- Removal effect of Python `d.pop(k, default)`. -/
def dremove {α : Type} : List (String × α) → String → List (String × α)
  | [], _ => []
  | p :: rest, k => if p.1 == k then dremove rest k else p :: dremove rest k

theorem dget_dset_self {α : Type} (m : List (String × α)) (k : String) (v : α) :
    dget (dset m k v) k = some v := by
  induction m with
  | nil => simp [dget, dset]
  | cons p rest ih =>
    by_cases h : p.1 = k
    · simp [dget, dset, h]
    · simp [dget, dset, h, ih]

theorem dget_dremove_self {α : Type} (m : List (String × α)) (k : String) :
    dget (dremove m k) k = none := by
  induction m with
  | nil => simp [dget, dremove]
  | cons p rest ih =>
    by_cases h : p.1 = k
    · simp [dget, dremove, h, ih]
    · simp [dget, dremove, h, ih]

namespace ConfirmationStorage

/--
One slot entry of the confirmations file.  `mark_sent` always writes all
three keys, so entries reachable through the API carry exactly the keys
`status`, `sent_at`, `confirmed_at`; we model them as a record.  The
Python guard `if not entry` in `mark_confirmed`/`mark_skipped` is only
false for a missing or empty dict, and empty entry dicts are never
created by the API, so it coincides with an existence test (`Option`).
-/
structure Entry where
  status : String
  sent_at : Option String
  confirmed_at : Option String
deriving DecidableEq

/-- The per-day slot map (Python: `data[day_key]`). -/
abbrev Day := List (String × Entry)

/-- The whole confirmations file: day key to slot map. -/
abbrev Store := List (String × Day)

/-- `ConfirmationStorage.mark_sent` (src/storage.py lines 38-44):
inserts or overwrites the record with status pending. -/
def mark_sent (st : Store) (day_key slot sent_at_iso : String) : Store :=
  let day := (dget st day_key).getD []
  dset st day_key (dset day slot ⟨"pending", some sent_at_iso, none⟩)

/-- `ConfirmationStorage.mark_confirmed` (src/storage.py lines 46-55).
When the slot has no entry the file is left untouched (the Python code
mutates only the local re-read copy and skips the write), returning
false.  Result: (new store, returned bool). -/
def mark_confirmed (st : Store) (day_key slot confirmed_at_iso : String) : Store × Bool :=
  let day := (dget st day_key).getD []
  match dget day slot with
  | none => (st, false)
  | some e =>
      (dset st day_key
        (dset day slot { e with status := "confirmed", confirmed_at := some confirmed_at_iso }),
       true)

/-- `ConfirmationStorage.mark_skipped` (src/storage.py lines 57-66):
symmetric to `mark_confirmed`; the skip timestamp is stored in the same
`confirmed_at` field. -/
def mark_skipped (st : Store) (day_key slot skipped_at_iso : String) : Store × Bool :=
  let day := (dget st day_key).getD []
  match dget day slot with
  | none => (st, false)
  | some e =>
      (dset st day_key
        (dset day slot { e with status := "skipped", confirmed_at := some skipped_at_iso }),
       true)

/-- `ReminderStatus` dataclass (src/storage.py lines 10-15). -/
structure ReminderStatus where
  slot : String
  status : String
  sent_at : Option String
  confirmed_at : Option String
deriving DecidableEq

/-- Key order used by Python `sorted(day.items())`. -/
def slotLe (a b : String × Entry) : Bool :=
  decide (a.1 < b.1) || a.1 == b.1

def insertSorted (p : String × Entry) : List (String × Entry) → List (String × Entry)
  | [] => [p]
  | q :: rest => if slotLe p q then p :: q :: rest else q :: insertSorted p rest

def sortBySlot : List (String × Entry) → List (String × Entry)
  | [] => []
  | p :: rest => insertSorted p (sortBySlot rest)

/-- `ConfirmationStorage.list_day` (src/storage.py lines 68-80): all
records of the day ordered by slot label.  API-created entries always
carry all three keys, so the Python per-key defaults never fire. -/
def list_day (st : Store) (day_key : String) : List ReminderStatus :=
  (sortBySlot ((dget st day_key).getD [])).map
    (fun p => ⟨p.1, p.2.status, p.2.sent_at, p.2.confirmed_at⟩)

/-- Observer: the stored status of a slot, if the record exists. -/
def status_of (st : Store) (day_key slot : String) : Option String :=
  (dget ((dget st day_key).getD []) slot).map (fun e => e.status)

/-- Observer: the stored sent timestamp of a slot, if the record exists. -/
def sent_at_of (st : Store) (day_key slot : String) : Option (Option String) :=
  (dget ((dget st day_key).getD []) slot).map (fun e => e.sent_at)

/-- Observer: the stored resolution timestamp of a slot, if the record exists. -/
def confirmed_at_of (st : Store) (day_key slot : String) : Option (Option String) :=
  (dget ((dget st day_key).getD []) slot).map (fun e => e.confirmed_at)

/-- Record existence test, the truth value of Python's `if not entry`. -/
def record_exists (st : Store) (day_key slot : String) : Bool :=
  (dget ((dget st day_key).getD []) slot).isSome

end ConfirmationStorage

def dashChar : Char := '-'

def colonChar : Char := ':'

def plusChar : Char := '+'

/-- Python `s.split(sep)` for a one-character separator, over the
character list of the string. -/
def splitOnChar (sep : Char) : List Char → List (List Char)
  | [] => [[]]
  | c :: rest =>
    let r := splitOnChar sep rest
    if c = sep then [] :: r
    else
      match r with
      | [] => [[c]]
      | grp :: rest2 => (c :: grp) :: rest2

/-- Whitespace stripping done by Python `int(str)` before parsing. -/
def trimChars (cs : List Char) : List Char :=
  ((cs.dropWhile Char.isWhitespace).reverse.dropWhile Char.isWhitespace).reverse

/-- Python `int(str)` restricted to ASCII decimal forms: optional
whitespace, optional sign, then decimal digits; `none` models the
`ValueError` path.  (CPython additionally accepts digit-grouping
underscores and non-ASCII decimal digits; that extra acceptance is
immaterial to the properties proved here, which hold for every parse
outcome.) -/
def pythonParseInt (cs : List Char) : Option Int :=
  let t := trimChars cs
  let signDigits : Int × List Char :=
    match t with
    | [] => (1, [])
    | c :: rest =>
      if c = dashChar then (-1, rest)
      else if c = plusChar then (1, rest)
      else (1, t)
  let ds := signDigits.2
  if ds ≠ [] ∧ ds.all (fun c => c.isDigit) then
    some (signDigits.1 * Int.ofNat (ds.foldl (fun acc c => acc * 10 + (c.toNat - 48)) 0))
  else none

/-- The text `get_period_name` parses the hour from (src/bot.py lines
341-344): the part after the last dash when the label contains a dash
(Python `"-" in s` holds exactly when splitting on the dash yields at
least two parts), then the prefix before the first colon. -/
def hour_text (slot_time : String) : List Char :=
  let parts := splitOnChar dashChar slot_time.toList
  let time_part := if 2 ≤ parts.length then parts.getLastD [] else slot_time.toList
  (splitOnChar colonChar time_part).headD []

/-- The day-period bucket chosen from the parsed hour (src/bot.py lines
348-353). -/
def period_of_hour (hour : Int) : String :=
  if 5 ≤ hour ∧ hour < 14 then "утром"
  else if 14 ≤ hour ∧ hour < 20 then "днем"
  else "вечером"

/-- `get_period_name` (src/bot.py lines 339-353): hour extraction, the
`except` branch returning the generic period, then the bucket chain. -/
def get_period_name (slot_time : String) : String :=
  match pythonParseInt (hour_text slot_time) with
  | none => "сегодня"
  | some hour => period_of_hour hour

namespace ReminderMessagesStorage

/-- In-memory state of `ReminderMessagesStorage` (src/storage.py lines
132-140): message-id lists and photo file ids, both keyed by
`"{chat_id}:{day_key}:{slot}"`. -/
structure State where
  messages : List (String × List Int)
  photos : List (String × String)
deriving DecidableEq

/-- `ReminderMessagesStorage._make_key` (src/storage.py lines 142-143). -/
def make_key (chat_id : Int) (day_key slot : String) : String :=
  toString chat_id ++ ":" ++ day_key ++ ":" ++ slot

/-- `ReminderMessagesStorage.add_message` (src/storage.py lines 145-151):
create the list when absent, then append. -/
def add_message (t : State) (chat_id : Int) (day_key slot : String) (message_id : Int) :
    State :=
  let key := make_key chat_id day_key slot
  { t with messages := dset t.messages key ((dget t.messages key).getD [] ++ [message_id]) }

/-- `ReminderMessagesStorage.set_photo` (src/storage.py lines 153-157). -/
def set_photo (t : State) (chat_id : Int) (day_key slot : String) (file_id : String) :
    State :=
  { t with photos := dset t.photos (make_key chat_id day_key slot) file_id }

/-- `ReminderMessagesStorage.get_photo` (src/storage.py lines 159-163). -/
def get_photo (t : State) (chat_id : Int) (day_key slot : String) : Option String :=
  dget t.photos (make_key chat_id day_key slot)

/-- `ReminderMessagesStorage.get_messages` (src/storage.py lines 165-169);
Python returns a copy of the stored list, which is the list itself in a
functional model. -/
def get_messages (t : State) (chat_id : Int) (day_key slot : String) : List Int :=
  (dget t.messages (make_key chat_id day_key slot)).getD []

/-- `ReminderMessagesStorage.clear_messages` (src/storage.py lines
171-177): `pop` both maps, returning the popped values (with the same
defaults the Python `pop` calls use) and the drained state. -/
def clear_messages (t : State) (chat_id : Int) (day_key slot : String) :
    (List Int × Option String) × State :=
  let key := make_key chat_id day_key slot
  (((dget t.messages key).getD [], dget t.photos key),
   { messages := dremove t.messages key, photos := dremove t.photos key })

end ReminderMessagesStorage

namespace SubscribersStorage

/-- In-memory state of `SubscribersStorage` (src/storage.py lines
180-229): the Python `set` of chat ids. -/
abbrev State := Finset Int

/-- `SubscribersStorage.add` (src/storage.py lines 209-213). -/
def add (s : State) (chat_id : Int) : State := insert chat_id s

/-- `SubscribersStorage.remove` (src/storage.py lines 215-219), Python
`set.discard`: no error on a non-member. -/
def remove (s : State) (chat_id : Int) : State := s.erase chat_id

/-- `SubscribersStorage.contains` (src/storage.py lines 221-224). -/
def contains (s : State) (chat_id : Int) : Bool := decide (chat_id ∈ s)

/-- `SubscribersStorage.get_all` (src/storage.py lines 226-229):
`list(self._subscribers)`.  Python enumerates the set in an unspecified
order; we fix the sorted enumeration, a deterministic choice of the same
multiset of elements. -/
def get_all (s : State) : List Int := s.sort (· ≤ ·)

end SubscribersStorage

/-- `make_day_key` (src/bot.py lines 103-104). -/
def make_day_key (chat_id : Int) (date_key : String) : String :=
  toString chat_id ++ ":" ++ date_key

/-- Payload of one escalation ("nag") timer, the `data` dict built at
src/bot.py lines 421-431 and 474-484; `nag_count` is the escalation
sequence number carried by the timer. -/
structure NagJob where
  day_key : String
  slot : String
  chat_id : Int
  nag_count : Nat
deriving DecidableEq

/-- The record lookup done by `send_nag_reminder` (src/bot.py lines
442-444): `next((item for item in statuses if item.slot == slot), None)`
over `list_day`. -/
def slot_record (st : ConfirmationStorage.Store) (chat_id : Int) (day_key slot : String) :
    Option ConfirmationStorage.ReminderStatus :=
  (ConfirmationStorage.list_day st (make_day_key chat_id day_key)).find?
    (fun item => item.slot == slot)

/-- `send_nag_reminder` (src/bot.py lines 434-484), as a transition on
the message-tracker state.  External effects are surfaced in the result:
the Bool is whether a nag message was sent (and recorded under the fresh
`message_id`), and the `Option NagJob` is the follow-up timer scheduled
by `run_once`, if any.  Random text choice and the network send are
outside the model; the store is read-only here. -/
def send_nag_reminder (st : ConfirmationStorage.Store) (tr : ReminderMessagesStorage.State)
    (job : NagJob) (message_id : Int) :
    ReminderMessagesStorage.State × Bool × Option NagJob :=
  match slot_record st job.chat_id job.day_key job.slot with
  | none => (tr, false, none)
  | some r =>
    if r.status != "pending" then (tr, false, none)
    else
      let tr1 := ReminderMessagesStorage.add_message tr job.chat_id job.day_key job.slot
        message_id
      if job.nag_count < 6 then
        (tr1, true, some { job with nag_count := job.nag_count + 1 })
      else
        (tr1, true, none)

/-- Outcome of the confirm/skip branch of `handle_callback` visible to
the user. -/
inductive CbOutcome
  | stale
  | resolved
  | unknown
deriving DecidableEq

/-- The confirm/skip path of `handle_callback` (src/bot.py lines
546-608), entered after the payload has been split into
`action, chat_id, day_key, slot`.  `message_chat_id` is
`query.message.chat_id if query.message else None`; when it differs from
the chat id embedded in the payload the handler answers with the
stale-button alert and returns before touching any state.  Otherwise the
matching store mutator runs, the tracker is drained
(`delete_reminder_messages` calls `clear_messages`), and the nag timers
are cancelled; the final Bool reports that cancellation
(`cancel_nag_reminders`) happened. -/
def handle_resolution (st : ConfirmationStorage.Store) (tr : ReminderMessagesStorage.State)
    (message_chat_id : Option Int) (action : String) (chat_id : Int)
    (day_key slot now_iso : String) :
    ConfirmationStorage.Store × ReminderMessagesStorage.State × CbOutcome × Bool :=
  if message_chat_id ≠ some chat_id then
    (st, tr, CbOutcome.stale, false)
  else
    let chat_day_key := make_day_key chat_id day_key
    if action == "confirm" then
      let st1 := (ConfirmationStorage.mark_confirmed st chat_day_key slot now_iso).1
      let tr1 := (ReminderMessagesStorage.clear_messages tr chat_id day_key slot).2
      (st1, tr1, CbOutcome.resolved, true)
    else if action == "skip" then
      let st1 := (ConfirmationStorage.mark_skipped st chat_day_key slot now_iso).1
      let tr1 := (ReminderMessagesStorage.clear_messages tr chat_id day_key slot).2
      (st1, tr1, CbOutcome.resolved, true)
    else
      (st, tr, CbOutcome.unknown, false)

namespace ConfirmationStorage

theorem mark_confirmed_of_exists (st : Store) (dk slot t : String) (e : Entry)
    (h : dget ((dget st dk).getD []) slot = some e) :
    mark_confirmed st dk slot t =
      (dset st dk (dset ((dget st dk).getD []) slot
         { e with status := "confirmed", confirmed_at := some t }), true) := by
  simp [mark_confirmed, h]

theorem mark_skipped_of_exists (st : Store) (dk slot t : String) (e : Entry)
    (h : dget ((dget st dk).getD []) slot = some e) :
    mark_skipped st dk slot t =
      (dset st dk (dset ((dget st dk).getD []) slot
         { e with status := "skipped", confirmed_at := some t }), true) := by
  simp [mark_skipped, h]

theorem dget_after_dset_dset (st : Store) (dk slot : String) (d : Day) (e : Entry) :
    dget ((dget (dset st dk (dset d slot e)) dk).getD []) slot = some e := by
  rw [dget_dset_self]
  simp [dget_dset_self]

theorem status_of_dset_dset (st : Store) (dk slot : String) (d : Day) (e : Entry) :
    status_of (dset st dk (dset d slot e)) dk slot = some e.status := by
  unfold status_of
  rw [dget_after_dset_dset]
  rfl

theorem sent_at_of_dset_dset (st : Store) (dk slot : String) (d : Day) (e : Entry) :
    sent_at_of (dset st dk (dset d slot e)) dk slot = some e.sent_at := by
  unfold sent_at_of
  rw [dget_after_dset_dset]
  rfl

theorem confirmed_at_of_dset_dset (st : Store) (dk slot : String) (d : Day) (e : Entry) :
    confirmed_at_of (dset st dk (dset d slot e)) dk slot = some e.confirmed_at := by
  unfold confirmed_at_of
  rw [dget_after_dset_dset]
  rfl

end ConfirmationStorage

namespace ConfirmationStorage

/-- Claim C1 counterexample: after the slot is resolved by mark_skipped,
a further mark_confirmed on the same (dayKey, slot) is NOT rejected — it
returns true and moves the stored status from skipped to confirmed. -/
theorem second_resolution_not_rejected_cex :
    status_of (mark_skipped (mark_sent [] "42:2024-01-01" "09:00" "t0")
        "42:2024-01-01" "09:00" "t1").1 "42:2024-01-01" "09:00" = some "skipped" ∧
    (mark_confirmed (mark_skipped (mark_sent [] "42:2024-01-01" "09:00" "t0")
        "42:2024-01-01" "09:00" "t1").1 "42:2024-01-01" "09:00" "t2").2 = true ∧
    status_of (mark_confirmed (mark_skipped (mark_sent [] "42:2024-01-01" "09:00" "t0")
        "42:2024-01-01" "09:00" "t1").1 "42:2024-01-01" "09:00" "t2").1
      "42:2024-01-01" "09:00" = some "confirmed" := by
  decide

/-- Claim C1 (amended): once a record exists, every resolution call
succeeds and leaves the status at a terminal value — the record never
returns to pending — but a second resolution call is not rejected: it
returns true and overwrites the status with its own terminal value
(markSkipped after markConfirmed yields skipped, and vice versa). -/
theorem resolution_terminal_overwrite (st : Store) (dk slot t1 t2 : String)
    (h : record_exists st dk slot = true) :
    ((mark_confirmed st dk slot t1).2 = true ∧
      status_of (mark_confirmed st dk slot t1).1 dk slot = some "confirmed") ∧
    ((mark_skipped (mark_confirmed st dk slot t1).1 dk slot t2).2 = true ∧
      status_of (mark_skipped (mark_confirmed st dk slot t1).1 dk slot t2).1 dk slot
        = some "skipped") ∧
    ((mark_confirmed (mark_skipped st dk slot t1).1 dk slot t2).2 = true ∧
      status_of (mark_confirmed (mark_skipped st dk slot t1).1 dk slot t2).1 dk slot
        = some "confirmed") := by
  unfold record_exists at h
  obtain ⟨e, he⟩ := Option.isSome_iff_exists.mp h
  have hc := mark_confirmed_of_exists st dk slot t1 e he
  have hs := mark_skipped_of_exists st dk slot t1 e he
  refine ⟨⟨by rw [hc], by rw [hc]; exact status_of_dset_dset ..⟩, ?_, ?_⟩
  · have he2 := dget_after_dset_dset st dk slot ((dget st dk).getD [])
      { e with status := "confirmed", confirmed_at := some t1 }
    rw [hc]
    have hs2 := mark_skipped_of_exists _ dk slot t2 _ he2
    exact ⟨by rw [hs2], by rw [hs2]; exact status_of_dset_dset ..⟩
  · have he2 := dget_after_dset_dset st dk slot ((dget st dk).getD [])
      { e with status := "skipped", confirmed_at := some t1 }
    rw [hs]
    have hc2 := mark_confirmed_of_exists _ dk slot t2 _ he2
    exact ⟨by rw [hc2], by rw [hc2]; exact status_of_dset_dset ..⟩

/-- Claim C1 amended witness at a concrete store. -/
theorem resolution_terminal_overwrite_witness :
    record_exists (mark_sent [] "42:2024-01-01" "09:00" "t0") "42:2024-01-01" "09:00"
        = true ∧
    status_of (mark_skipped (mark_confirmed (mark_sent [] "42:2024-01-01" "09:00" "t0")
        "42:2024-01-01" "09:00" "t1").1 "42:2024-01-01" "09:00" "t2").1
      "42:2024-01-01" "09:00" = some "skipped" :=
  ⟨by decide,
   ((resolution_terminal_overwrite (mark_sent [] "42:2024-01-01" "09:00" "t0")
      "42:2024-01-01" "09:00" "t1" "t2" (by decide)).2.1).2⟩

/-- Claim C3 counterexample: a second markSent on the same (dayKey, slot)
overwrites the stored sent timestamp, so it is not immutable after the
record's creation. -/
theorem mark_sent_overwrites_sent_at_cex :
    sent_at_of (mark_sent [] "42:2024-01-01" "09:00" "t0") "42:2024-01-01" "09:00"
        = some (some "t0") ∧
    sent_at_of (mark_sent (mark_sent [] "42:2024-01-01" "09:00" "t0")
        "42:2024-01-01" "09:00" "t1") "42:2024-01-01" "09:00" = some (some "t1") ∧
    ("t1" : String) ≠ "t0" := by
  decide

/-- Claim C3 (amended): the resolution operations markConfirmed and
markSkipped never change the stored sent timestamp of the slot they
resolve; markSent sets it to its argument — including overwriting it
when the record already exists, rather than the timestamp being set
exactly once. -/
theorem sent_at_frame (st : Store) (dk slot t : String) :
    sent_at_of (mark_confirmed st dk slot t).1 dk slot = sent_at_of st dk slot ∧
    sent_at_of (mark_skipped st dk slot t).1 dk slot = sent_at_of st dk slot ∧
    sent_at_of (mark_sent st dk slot t) dk slot = some (some t) := by
  refine ⟨?_, ?_, ?_⟩
  · cases he : dget ((dget st dk).getD []) slot with
    | none => simp [mark_confirmed, he]
    | some e =>
      rw [mark_confirmed_of_exists st dk slot t e he]
      unfold sent_at_of
      rw [dget_after_dset_dset, he]
      rfl
  · cases he : dget ((dget st dk).getD []) slot with
    | none => simp [mark_skipped, he]
    | some e =>
      rw [mark_skipped_of_exists st dk slot t e he]
      unfold sent_at_of
      rw [dget_after_dset_dset, he]
      rfl
  · unfold mark_sent
    exact sent_at_of_dset_dset ..

/-- Claim C4: markConfirmed (and symmetrically markSkipped) succeeds and
writes the terminal status together with the resolution timestamp
exactly when a record exists for the slot, returning true; with no
record it returns false and leaves the store unchanged (the shallow
embedding is a total function, so no exception is raised). -/
theorem mark_resolution_iff_record (st : Store) (dk slot t : String) :
    ((mark_confirmed st dk slot t).2 = record_exists st dk slot) ∧
    (record_exists st dk slot = false → mark_confirmed st dk slot t = (st, false)) ∧
    (record_exists st dk slot = true →
       status_of (mark_confirmed st dk slot t).1 dk slot = some "confirmed" ∧
       confirmed_at_of (mark_confirmed st dk slot t).1 dk slot = some (some t)) ∧
    ((mark_skipped st dk slot t).2 = record_exists st dk slot) ∧
    (record_exists st dk slot = false → mark_skipped st dk slot t = (st, false)) ∧
    (record_exists st dk slot = true →
       status_of (mark_skipped st dk slot t).1 dk slot = some "skipped" ∧
       confirmed_at_of (mark_skipped st dk slot t).1 dk slot = some (some t)) := by
  cases he : dget ((dget st dk).getD []) slot with
  | none =>
    unfold record_exists
    rw [he]
    simp [mark_confirmed, mark_skipped, he]
  | some e =>
    unfold record_exists
    rw [he]
    have hc := mark_confirmed_of_exists st dk slot t e he
    have hs := mark_skipped_of_exists st dk slot t e he
    refine ⟨by rw [hc]; rfl, by simp, fun _ => ⟨?_, ?_⟩,
            by rw [hs]; rfl, by simp, fun _ => ⟨?_, ?_⟩⟩
    · rw [hc]; exact status_of_dset_dset ..
    · rw [hc]; exact confirmed_at_of_dset_dset ..
    · rw [hs]; exact status_of_dset_dset ..
    · rw [hs]; exact confirmed_at_of_dset_dset ..

/-- Claim C4 witness: with a record present the resolution writes the
terminal status; on the empty store it returns false and changes
nothing. -/
theorem mark_resolution_iff_record_witness :
    (record_exists (mark_sent [] "42:2024-01-01" "09:00" "t0") "42:2024-01-01" "09:00"
        = true ∧
     status_of (mark_confirmed (mark_sent [] "42:2024-01-01" "09:00" "t0")
        "42:2024-01-01" "09:00" "t1").1 "42:2024-01-01" "09:00" = some "confirmed") ∧
    (record_exists ([] : Store) "42:2024-01-01" "09:00" = false ∧
     mark_skipped ([] : Store) "42:2024-01-01" "09:00" "t1" = ([], false)) :=
  ⟨⟨by decide,
    ((mark_resolution_iff_record (mark_sent [] "42:2024-01-01" "09:00" "t0")
        "42:2024-01-01" "09:00" "t1").2.2.1 (by decide)).1⟩,
   ⟨by decide,
    (mark_resolution_iff_record ([] : Store) "42:2024-01-01" "09:00" "t1").2.2.2.2.1
      (by decide)⟩⟩

end ConfirmationStorage

/-- Claim C2 counterexample: the slot label 04:30 carries hour 4
(0 ≤ 4 ≤ 23), so by the claim its bucket should be the morning one, yet
the code buckets every hour below 5 as evening — hour 5 is a third
period boundary. -/
theorem early_hour_bucketed_evening_cex :
    get_period_name "04:30" = "вечером" ∧ get_period_name "04:30" ≠ "утром" ∧
    period_of_hour 4 = "вечером" := by
  decide

/-- Claim C2 (amended): for every hour h with 0 ≤ h ≤ 23 the bucket is
morning exactly when 5 ≤ h < 14, afternoon exactly when 14 ≤ h < 20, and
evening exactly when h < 5 or h ≥ 20 — the period boundaries are at
hours 5, 14 and 20, not only at 14 and 20. -/
theorem period_boundaries_amended (h : Int) (h0 : 0 ≤ h) (h23 : h ≤ 23) :
    (period_of_hour h = "утром" ↔ 5 ≤ h ∧ h < 14) ∧
    (period_of_hour h = "днем" ↔ 14 ≤ h ∧ h < 20) ∧
    (period_of_hour h = "вечером" ↔ h < 5 ∨ 20 ≤ h) := by
  interval_cases h <;> decide

/-- Claim C2 amended witness at hour 21. -/
theorem period_boundaries_amended_witness :
    period_of_hour 21 = "вечером" ↔ (21 : Int) < 5 ∨ 20 ≤ (21 : Int) :=
  (period_boundaries_amended 21 (by decide) (by decide)).2.2

/-- Claim C10: the period-bucket function is total on slot-label
strings: it always returns one of the four fixed period names; when the
hour text (the part after the last dash, before the first colon) has no
parseable hour it returns the generic period, and when an hour parses
the result is that hour's bucket. -/
theorem get_period_name_total (s : String) :
    (get_period_name s = "утром" ∨ get_period_name s = "днем" ∨
     get_period_name s = "вечером" ∨ get_period_name s = "сегодня") ∧
    (pythonParseInt (hour_text s) = none → get_period_name s = "сегодня") ∧
    (∀ h : Int, pythonParseInt (hour_text s) = some h →
       get_period_name s = period_of_hour h) := by
  refine ⟨?_, ?_, ?_⟩
  · cases hp : pythonParseInt (hour_text s) with
    | none => simp [get_period_name, hp]
    | some hour =>
      simp only [get_period_name, hp]
      unfold period_of_hour
      split_ifs <;> simp
  · intro hn
    unfold get_period_name
    rw [hn]
  · intro h hs
    unfold get_period_name
    rw [hs]

/-- Claim C10 witness: a label with no parseable hour yields the generic
period, and a dashed test label is bucketed by the hour after its last
dash. -/
theorem get_period_name_total_witness :
    get_period_name "abc" = "сегодня" ∧
    get_period_name "ТЕСТ-23:00" = period_of_hour 23 :=
  ⟨(get_period_name_total "abc").2.1 (by decide),
   (get_period_name_total "ТЕСТ-23:00").2.2 23 (by decide)⟩

/-- Claim C5: an escalation firing with sequence number n schedules a
follow-up timer only when n < 6, that follow-up carries sequence n + 1,
and once n reaches 6 no further timer is scheduled — whatever the slot's
state, in particular even while it is still pending. -/
theorem nag_sequence_bounded (st : ConfirmationStorage.Store)
    (tr : ReminderMessagesStorage.State) (job : NagJob) (mid : Int) :
    (∀ j, (send_nag_reminder st tr job mid).2.2 = some j →
        job.nag_count < 6 ∧ j.nag_count = job.nag_count + 1) ∧
    (6 ≤ job.nag_count → (send_nag_reminder st tr job mid).2.2 = none) := by
  unfold send_nag_reminder
  cases slot_record st job.chat_id job.day_key job.slot with
  | none => simp
  | some r =>
    by_cases hs : r.status = "pending"
    · by_cases h6 : job.nag_count < 6
      · simp [hs, h6]
      · simp [hs, h6]
    · simp [hs]

/-- Claim C5 witness: with the slot still pending and sequence 6, no
seventh timer is scheduled. -/
theorem nag_sequence_bounded_witness :
    (send_nag_reminder (ConfirmationStorage.mark_sent [] "42:2024-01-01" "09:00" "t0")
      ⟨[], []⟩ ⟨"2024-01-01", "09:00", 42, 6⟩ 100).2.2 = none :=
  (nag_sequence_bounded (ConfirmationStorage.mark_sent [] "42:2024-01-01" "09:00" "t0")
      ⟨[], []⟩ ⟨"2024-01-01", "09:00", 42, 6⟩ 100).2 (by decide)

/-- Claim C6: when the escalation timer fires for a slot whose record is
missing or no longer pending, the handler is a complete no-op: the
message tracker is unchanged (nothing recorded), no message is sent, and
no follow-up timer is scheduled; the embedding is total, so no error is
surfaced. -/
theorem nag_noop_when_not_pending (st : ConfirmationStorage.Store)
    (tr : ReminderMessagesStorage.State) (job : NagJob) (mid : Int)
    (h : (slot_record st job.chat_id job.day_key job.slot).all
           (fun r => r.status != "pending") = true) :
    send_nag_reminder st tr job mid = (tr, false, none) := by
  unfold send_nag_reminder
  cases hr : slot_record st job.chat_id job.day_key job.slot with
  | none => rfl
  | some r =>
    rw [hr] at h
    simp only [Option.all_some] at h
    simp [h]

/-- Claim C6 witness: firing the timer for an already confirmed slot
changes nothing and schedules nothing. -/
theorem nag_noop_when_not_pending_witness :
    send_nag_reminder
      (ConfirmationStorage.mark_confirmed
        (ConfirmationStorage.mark_sent [] "42:2024-01-01" "09:00" "t0")
        "42:2024-01-01" "09:00" "t1").1
      ⟨[("42:2024-01-01:09:00", [5])], []⟩ ⟨"2024-01-01", "09:00", 42, 2⟩ 100
      = (⟨[("42:2024-01-01:09:00", [5])], []⟩, false, none) :=
  nag_noop_when_not_pending _ _ _ _ (by decide)

/-- Claim C7: when the chat the button was pressed in does not match the
subscriber id embedded in the callback payload, the handler answers with
the stale-button alert and mutates nothing: the status store and the
message tracker are returned unchanged and no timers are cancelled. -/
theorem callback_mismatch_rejected (st : ConfirmationStorage.Store)
    (tr : ReminderMessagesStorage.State) (mcid : Option Int) (action : String)
    (cid : Int) (dk slot now : String)
    (h : mcid ≠ some cid) :
    handle_resolution st tr mcid action cid dk slot now
      = (st, tr, CbOutcome.stale, false) := by
  unfold handle_resolution
  rw [if_pos h]

/-- Claim C7 witness at a mismatching pair of chat ids. -/
theorem callback_mismatch_rejected_witness :
    handle_resolution [] ⟨[], []⟩ (some 7) "confirm" 42 "2024-01-01" "09:00" "t"
      = ([], ⟨[], []⟩, CbOutcome.stale, false) :=
  callback_mismatch_rejected [] ⟨[], []⟩ (some 7) "confirm" 42 "2024-01-01" "09:00" "t"
    (by decide)

namespace ReminderMessagesStorage

/-- Claim C8: clearMessages is a single-use drain: it returns exactly
the stored message ids and the stored photo reference for the key
(everything added since the last drain, as adds append to the stored
list), and it removes both, so an immediately repeated call yields the
empty list and no photo. -/
theorem clear_messages_single_use_drain (t : State) (c : Int) (d s : String) (mid : Int) :
    (clear_messages t c d s).1.1 = get_messages t c d s ∧
    (clear_messages t c d s).1.2 = get_photo t c d s ∧
    get_messages (add_message t c d s mid) c d s = get_messages t c d s ++ [mid] ∧
    (clear_messages (clear_messages t c d s).2 c d s).1 = ([], none) := by
  refine ⟨rfl, rfl, ?_, ?_⟩
  · unfold get_messages add_message
    simp [dget_dset_self]
  · unfold clear_messages
    simp [dget_dremove_self]

end ReminderMessagesStorage

namespace SubscribersStorage

/-- Claim C9: subscriber add and remove are idempotent set operations:
adding twice equals adding once, after an add the registry contains the
id and enumerates it exactly once, and removing a non-member leaves the
registry unchanged (Python set.discard raises no error). -/
theorem subscribers_idempotent (s : State) (x : Int) :
    add (add s x) x = add s x ∧
    contains (add s x) x = true ∧
    (get_all (add s x)).count x = 1 ∧
    (x ∉ s → remove s x = s) := by
  refine ⟨Finset.insert_idem x s, by simp [contains, add], ?_, fun hx =>
    Finset.erase_eq_of_not_mem hx⟩
  exact List.count_eq_one_of_mem ((add s x).sort_nodup _)
    ((Finset.mem_sort _).mpr (Finset.mem_insert_self x s))

/-- Claim C9 witness: removing a non-member of a concrete registry
leaves it unchanged, and a freshly added member is contained. -/
theorem subscribers_idempotent_witness :
    remove ({5} : Finset Int) 3 = {5} ∧
    contains (add ({5} : Finset Int) 3) 3 = true :=
  ⟨(subscribers_idempotent {5} 3).2.2.2 (by decide),
   (subscribers_idempotent {5} 3).2.1⟩

end SubscribersStorage
